import Mathlib

/-!
Verification of the ns3mptcp TCP/MPTCP connection core.

Shallow embedding of the connection engine declared in
`src/src/internet/model/tcp-socket-base.h`.  The repository snapshot under
`src/` contains only this header (declarations, member fields and doc
comments); every member-function body is absent.  Following the header's
field layout and doc comments, the operations are therefore modelled from
the specification (each such definition carries a doc comment starting
with `Modelled from the spec:`).

Conventions of the embedding:
* `SequenceNumber32` and byte counts are modelled as `Nat` (the spec's
  sequence ledger is stated over abstract sequence marks; 32-bit
  wrap-around is not exercised by any claim).
* `Time` is modelled as `Nat` (simulated clock ticks).
* `TracedValue<T>` wrappers are transparent: the underlying value.
* Scheduled events (`EventId`) are modelled as `Option Nat`: `none` means
  no pending firing, `some d` a pending firing at deadline `d`.
* Calls to external collaborators are modelled as append-only logs kept in
  the state: `m_rttSamples` (samples handed to the `RttEstimator`),
  `m_ccEvents` (notifications to the pluggable `TcpCongestionOps`
  strategy) and `m_sent` (segments handed to the network layer).
-/

namespace ns3

/-- TCP connection states (`TcpSocket::TcpStates_t`, stored in `m_state`). -/
inductive TcpStates_t where
  | CLOSED
  | LISTEN
  | SYN_SENT
  | SYN_RCVD
  | ESTABLISHED
  | CLOSE_WAIT
  | LAST_ACK
  | FIN_WAIT_1
  | FIN_WAIT_2
  | CLOSING
  | TIME_WAIT
deriving DecidableEq, Repr

/-- Ack state machine states (`TcpSocketState::TcpAckState_t`,
tcp-socket-base.h:103-115). `LAST_ACKSTATE` is a debug sentinel, not a
state, and is omitted. -/
inductive TcpAckState_t where
  | OPEN
  | DISORDER
  | CWR
  | RECOVERY
  | LOSS
deriving DecidableEq, Repr

/-- Socket error codes used by the embedding (subset of
`Socket::SocketErrno`). -/
inductive SocketErrno where
  | ERROR_NOTERROR
  | ERROR_NOTCONN
  | ERROR_MSGSIZE
  | ERROR_SHUTDOWN
  | ERROR_INVAL
deriving DecidableEq, Repr

/-- Helper class to store RTT measurements (tcp-socket-base.h:63-82). -/
structure RttHistory where
  /-- First sequence number in packet sent. -/
  seq : Nat
  /-- Number of bytes sent. -/
  count : Nat
  /-- Time this one was sent. -/
  time : Nat
  /-- True if this has been retransmitted. -/
  retx : Bool
deriving DecidableEq, Repr

/-- Congestion-control block (`TcpSocketState`, tcp-socket-base.h:87-133):
cwnd, ssthresh, their initial values, the segment size and the ack-state
machine value. -/
structure TcpSocketState where
  m_cWnd : Nat
  m_ssThresh : Nat
  m_initialCWnd : Nat
  m_initialSsThresh : Nat
  m_segmentSize : Nat
  m_ackState : TcpAckState_t
deriving DecidableEq, Repr

/-- Notifications handed to the pluggable congestion-control strategy
(spec section 4.5: ack-received, loss-detected, rtt-sample). -/
inductive CongestionEvent where
  | ackReceived (bytesNewlyAcked : Nat)
  | lossDetected
  | rttSample (duration : Nat)
deriving DecidableEq, Repr

/-- A segment handed to the network layer: starting sequence number,
payload length and the SYN/ACK/FIN flag bits that matter to the claims. -/
structure SentSegment where
  seq : Nat
  len : Nat
  syn : Bool
  ack : Bool
  fin : Bool
deriving DecidableEq, Repr

/-- TCP option kinds relevant to the modelled negotiation (spec section
4.4: window-scale, timestamp, multipath capability). -/
inductive TcpOptionKind where
  | WScale
  | Timestamp
  | MpTcpCapable
deriving DecidableEq, Repr

/-- One TCP option read from a header: its kind and its numeric payload
(scale factor for WScale, timestamp value for Timestamp, key for
MpTcpCapable). -/
structure TcpOptionRec where
  kind : TcpOptionKind
  value : Nat
deriving DecidableEq, Repr

/-- The fields of a parsed TCP header consumed by the modelled
operations. -/
structure TcpHeader where
  seq : Nat
  ackNo : Nat
  syn : Bool
  ack : Bool
  fin : Bool
  rst : Bool
  /-- The 16-bit window field, before any scaling. -/
  windowSize : Nat
  /-- Payload length of the carrying segment. -/
  dataLen : Nat
  options : List TcpOptionRec
deriving DecidableEq, Repr

/-- A peer address (external collaborator; only its identity matters). -/
structure Address where
  addr : Nat
deriving DecidableEq, Repr

/-- The connection state: the member fields of `TcpSocketBase`
(tcp-socket-base.h:914-997) that the claims are about, plus the
collaborator logs described in the module header. -/
structure TcpSocketBase where
  -- Counters and events (tcp-socket-base.h:917-936)
  m_retxEvent : Option Nat
  m_lastAckEvent : Option Nat
  m_delAckEvent : Option Nat
  m_persistEvent : Option Nat
  m_timewaitEvent : Option Nat
  m_dupAckCount : Nat
  m_delAckCount : Nat
  m_delAckMaxCount : Nat
  m_noDelay : Bool
  m_cnCount : Nat
  m_cnRetries : Nat
  m_rto : Nat
  m_minRto : Nat
  m_persistTimeout : Nat
  m_cnTimeout : Nat
  m_lastRtt : Option Nat
  m_history : List RttHistory
  -- Rx and Tx buffer management (tcp-socket-base.h:948-953)
  m_firstTxUnack : Nat
  m_nextTxSequence : Nat
  m_highTxMark : Nat
  /-- Maximum capacity of the receive buffer (`m_rxBuffer->MaxBufferSize`). -/
  m_rxBufferMaxSize : Nat
  /-- Current occupancy of the send buffer (`m_txBuffer`). -/
  m_txBufferOccupancy : Nat
  /-- Capacity of the send buffer (`m_txBuffer->MaxBufferSize`). -/
  m_sndBufSize : Nat
  -- State-related attributes (tcp-socket-base.h:955-963)
  m_state : TcpStates_t
  m_errno : SocketErrno
  m_closeNotified : Bool
  m_closeOnEmpty : Bool
  m_shutdownSend : Bool
  m_shutdownRecv : Bool
  m_connected : Bool
  -- Window management (tcp-socket-base.h:965-971)
  m_maxWinSize : Nat
  m_rWnd : Nat
  m_highRxMark : Nat
  m_highRxAckMark : Nat
  -- Options (tcp-socket-base.h:973-985)
  m_mptcpEnabled : Bool
  m_winScalingEnabled : Bool
  m_sndScaleFactor : Nat
  m_rcvScaleFactor : Nat
  m_timestampEnabled : Bool
  m_timestampToEcho : Nat
  -- Fast Retransmit and Recovery (tcp-socket-base.h:989-994)
  m_lostOut : Nat
  m_retransOut : Nat
  -- Transmission Control Block (tcp-socket-base.h:996)
  m_tcb : TcpSocketState
  -- Collaborator logs (RttEstimator, TcpCongestionOps, network layer)
  m_rttSamples : List Nat
  m_ccEvents : List CongestionEvent
  m_sent : List SentSegment
deriving DecidableEq, Repr

/-! ## Window management -/

/-- Modelled from the spec: body of `TcpSocketBase::UnAckDataCount`
(declared tcp-socket-base.h:656) is absent from src.  Count of unacked
bytes: `highest-ever-sent - first-unacked`. -/
def UnAckDataCount (s : TcpSocketBase) : Nat :=
  s.m_highTxMark - s.m_firstTxUnack

/-- Modelled from the spec: body of `TcpSocketBase::BytesInFlight`
(declared tcp-socket-base.h:662) is absent from src.  Spec section 4.3:
unacked bytes adjusted downward by bytes already known lost (net of those
already retransmitted), via the `m_lostOut`/`m_retransOut` accounting. -/
def BytesInFlight (s : TcpSocketBase) : Nat :=
  UnAckDataCount s - (s.m_lostOut - s.m_retransOut)

/-- Modelled from the spec: body of `TcpSocketBase::Window` (declared
tcp-socket-base.h:668) is absent from src.  Max possible number of
unacked bytes: the minimum of the congestion window and the advertised
peer window. -/
def Window (s : TcpSocketBase) : Nat :=
  min s.m_tcb.m_cWnd s.m_rWnd

/-- Modelled from the spec: body of `TcpSocketBase::AvailableWindow`
(declared tcp-socket-base.h:674) is absent from src.  Unfilled portion of
the window, clamped to zero. -/
def AvailableWindow (s : TcpSocketBase) : Nat :=
  let win := Window s
  let inflight := BytesInFlight s
  if win ≤ inflight then 0 else win - inflight

/-- The peer's advertised window as carried by a header, after applying
the negotiated peer scale factor (spec glossary: advertised window is
optionally scaled by the negotiated power-of-two factor). -/
def rcvWindowOf (s : TcpSocketBase) (h : TcpHeader) : Nat :=
  if s.m_winScalingEnabled then h.windowSize * 2 ^ s.m_rcvScaleFactor
  else h.windowSize

/-- Modelled from the spec: body of `TcpSocketBase::UpdateWindowSize` is
absent from src; modelled from its doc comment (tcp-socket-base.h:682-694)
and spec section 4.3.  The update is suppressed unless (1) the segment
contains new data advancing the right edge, or (2) the segment acks new
data, or (3) the advertised window is larger than the recorded one.
Returns whether the update was accepted, with the updated state. -/
def UpdateWindowSize (s : TcpSocketBase) (h : TcpHeader) : Bool × TcpSocketBase :=
  let receivedWindow := rcvWindowOf s h
  let update0 := false
  let update1 := if s.m_rWnd < receivedWindow then true else update0
  let update2 := if s.m_highRxAckMark < h.ackNo then true else update1
  let update3 := if s.m_highRxMark < h.seq then true else update2
  if update3 then (true, { s with m_rWnd := receivedWindow })
  else (false, s)

/-! ## RTT history retirement (Karn's algorithm) -/

/-- Modelled from the spec: the retirement loop of
`TcpSocketBase::EstimateRtt` (declared tcp-socket-base.h:723) is absent
from src.  Spec section 4.2: a cumulative ack retires every history entry
fully covered by the new first-unacked; a retired entry that was never
retransmitted yields an RTT sample.  The history deque is ordered by
sequence, so retirement stops at the first entry not fully covered.
Returns the remaining history together with the RTT samples produced
(sample = now - send time). -/
def retireHistory (now ackSeq : Nat) : List RttHistory → List RttHistory × List Nat
  | [] => ([], [])
  | h :: rest =>
    if h.seq + h.count ≤ ackSeq then
      let r := retireHistory now ackSeq rest
      (r.1, if h.retx then r.2 else (now - h.time) :: r.2)
    else (h :: rest, [])

/-- Modelled from the spec: body of `TcpSocketBase::EstimateRtt` (declared
tcp-socket-base.h:723) is absent from src.  Retires acked history entries,
feeds the resulting samples to the RTT estimator collaborator
(`m_rttSamples` log) and records the last one in `m_lastRtt`. -/
def EstimateRtt (now : Nat) (h : TcpHeader) (s : TcpSocketBase) : TcpSocketBase :=
  let r := retireHistory now h.ackNo s.m_history
  { s with
    m_history := r.1
    m_rttSamples := s.m_rttSamples ++ r.2
    m_lastRtt := match r.2.getLast? with
      | some t => some t
      | none => s.m_lastRtt }

/-! ## Sending -/

/-- Mark every history entry starting at `seq` as retransmitted. -/
def markRetx (seq : Nat) (hist : List RttHistory) : List RttHistory :=
  hist.map fun h => if h.seq = seq then { h with retx := true } else h

/-- Modelled from the spec: body of `TcpSocketBase::SendDataPacket`
(declared tcp-socket-base.h:476-487) is absent from src.  Transmits
`bytes` payload bytes at `m_nextTxSequence`: hands the segment to the
network layer, appends a history entry (or, when re-sending below
`m_highTxMark`, marks the matching entry retransmitted), advances
`m_nextTxSequence`, raises `m_highTxMark`, and (re)arms the retransmit
timer. -/
def SendDataPacket (now : Nat) (s : TcpSocketBase) (bytes : Nat) : TcpSocketBase :=
  let seq := s.m_nextTxSequence
  let isRetransmission := seq < s.m_highTxMark
  { s with
    m_sent := s.m_sent ++ [⟨seq, bytes, false, true, false⟩]
    m_history :=
      if isRetransmission then markRetx seq s.m_history
      else s.m_history ++ [⟨seq, bytes, now, false⟩]
    m_nextTxSequence := seq + bytes
    m_highTxMark := max s.m_highTxMark (seq + bytes)
    m_retxEvent := some (now + s.m_rto) }

/-- Modelled from the spec: body of `TcpSocketBase::DoRetransmit`
(declared tcp-socket-base.h:759, doc: retransmit the oldest packet) is
absent from src.  Re-sends one segment starting at `m_firstTxUnack`,
marks its history entry retransmitted and rearms the retransmit timer
with the current RTO. -/
def DoRetransmit (now : Nat) (s : TcpSocketBase) : TcpSocketBase :=
  let seq := s.m_firstTxUnack
  let sz := min s.m_tcb.m_segmentSize (s.m_highTxMark - seq)
  { s with
    m_sent := s.m_sent ++ [⟨seq, sz, false, true, false⟩]
    m_history := markRetx seq s.m_history
    m_retxEvent := some (now + s.m_rto) }

/-- Modelled from the spec: body of `TcpSocketBase::Retransmit` (declared
tcp-socket-base.h:739, doc: halving cwnd and call DoRetransmit) is absent
from src.  Spec section 4.2 and the section 8 scenario: notify the
congestion-control strategy of a loss event, enter ack-state LOSS, set
ssthresh to half the congestion window (halving policy), collapse cwnd to
one segment, pull `m_nextTxSequence` back to the ReTx point
(tcp-socket-base.h:950), exponentially back off the RTO, then retransmit
the oldest unacked segment (which rearms the timer with the backed-off
RTO). -/
def Retransmit (now : Nat) (s : TcpSocketBase) : TcpSocketBase :=
  let s1 := { s with
    m_ccEvents := s.m_ccEvents ++ [CongestionEvent.lossDetected]
    m_tcb := { s.m_tcb with
      m_ackState := TcpAckState_t.LOSS
      m_ssThresh := s.m_tcb.m_cWnd / 2
      m_cWnd := s.m_tcb.m_segmentSize }
    m_nextTxSequence := s.m_firstTxUnack
    m_rto := 2 * s.m_rto }
  DoRetransmit now s1

/-- Modelled from the spec: body of `TcpSocketBase::ReTxTimeout` (declared
tcp-socket-base.h:734) is absent from src.  The retransmission-timer
handler: nothing to do when the connection is gone or when every sent
byte has been acknowledged; otherwise run `Retransmit`. -/
def ReTxTimeout (now : Nat) (s : TcpSocketBase) : TcpSocketBase :=
  if s.m_state = TcpStates_t.CLOSED ∨ s.m_state = TcpStates_t.TIME_WAIT then s
  else if s.m_highTxMark ≤ s.m_firstTxUnack then s
  else Retransmit now s

/-! ## Ack processing -/

/-- Modelled from the spec: body of `TcpSocketBase::NewAck` (declared
tcp-socket-base.h:729) is absent from src.  A cumulative ack of new data:
notify the congestion-control strategy of the newly acked bytes, advance
`m_firstTxUnack` to the ack, pull `m_nextTxSequence` up to it if it was
below (after an RTO the ReTx point may trail the ack), reset the dupack
counter, and cancel the retransmit timer when everything is acked or
rearm it otherwise. -/
def NewAck (now ack : Nat) (s : TcpSocketBase) : TcpSocketBase :=
  { s with
    m_ccEvents := s.m_ccEvents ++ [CongestionEvent.ackReceived (ack - s.m_firstTxUnack)]
    m_firstTxUnack := ack
    m_nextTxSequence := max s.m_nextTxSequence ack
    m_dupAckCount := 0
    m_retxEvent := if s.m_highTxMark ≤ ack then none else some (now + s.m_rto) }

/-- Modelled from the spec: body of `TcpSocketBase::ReceivedAck` (declared
tcp-socket-base.h:710) is absent from src.  Spec section 4.1: an ack at or
below first-unacked is a duplicate; an ack of new data within the sent
range first feeds RTT estimation (history retirement) then runs `NewAck`;
an ack beyond `m_highTxMark` is out of range and dropped. -/
def ReceivedAck (now : Nat) (s : TcpSocketBase) (h : TcpHeader) : TcpSocketBase :=
  if h.ackNo ≤ s.m_firstTxUnack then
    { s with m_dupAckCount := s.m_dupAckCount + 1 }
  else if h.ackNo ≤ s.m_highTxMark then
    NewAck now h.ackNo (EstimateRtt now h s)
  else s

/-! ## Option negotiation -/

/-- Modelled from the spec: body of `TcpSocketBase::CalculateWScale`
(declared tcp-socket-base.h:851) is absent from src.  Spec section 4.3:
the local scale factor is derived from the receive-buffer capacity (log2,
clamped to 14; per RFC 1323 the value cannot exceed 14). -/
def CalculateWScale (rxBufferMaxSize : Nat) : Nat :=
  min (Nat.log2 rxBufferMaxSize) 14

/-- Modelled from the spec: body of `TcpSocketBase::IsTcpOptionAllowed`
(declared tcp-socket-base.h:901) is absent from src.  Spec section 4.4:
each option kind is checked against an allow-list keyed by connection
phase (SYN / SYN-ACK / established); window-scale and
multipath-capability are handshake-only, timestamps ride every
segment. -/
def IsTcpOptionAllowed (st : TcpStates_t) (kind : TcpOptionKind) : Bool :=
  match kind with
  | TcpOptionKind.Timestamp => true
  | TcpOptionKind.WScale =>
      st = TcpStates_t.LISTEN ∨ st = TcpStates_t.SYN_SENT ∨ st = TcpStates_t.SYN_RCVD
  | TcpOptionKind.MpTcpCapable =>
      st = TcpStates_t.LISTEN ∨ st = TcpStates_t.SYN_SENT ∨ st = TcpStates_t.SYN_RCVD

/-- Modelled from the spec: body of `TcpSocketBase::ProcessOptionWScale`
(declared tcp-socket-base.h:822) is absent from src.  Reads the peer's
window scale option and saves it; per RFC 1323 the value cannot exceed
14. -/
def ProcessOptionWScale (s : TcpSocketBase) (value : Nat) : TcpSocketBase :=
  { s with m_rcvScaleFactor := min value 14 }

/-- Modelled from the spec: body of `TcpSocketBase::ProcessOptionTimestamp`
(declared tcp-socket-base.h:862) is absent from src.  Saves the peer's
timestamp for future echoing. -/
def ProcessOptionTimestamp (s : TcpSocketBase) (value : Nat) : TcpSocketBase :=
  { s with m_timestampToEcho := value }

/-- Modelled from the spec: the per-phase option dispatch
(`ProcessTcpOptionsSynSent`/`Listen`/`SynRcvd`, tcp-socket-base.h:804-806)
bodies are absent from src.  Spec section 4.4: a phase-disallowed option
occurrence is ignored, never fatal; an allowed one is processed by
kind. -/
def ProcessTcpOption (s : TcpSocketBase) (o : TcpOptionRec) : TcpSocketBase :=
  if IsTcpOptionAllowed s.m_state o.kind then
    match o.kind with
    | TcpOptionKind.WScale =>
        if s.m_winScalingEnabled then ProcessOptionWScale s o.value else s
    | TcpOptionKind.Timestamp =>
        if s.m_timestampEnabled then ProcessOptionTimestamp s o.value else s
    | TcpOptionKind.MpTcpCapable => s
  else s

/-- Modelled from the spec: body of `TcpSocketBase::AddOptionWScale`
(declared tcp-socket-base.h:837) is absent from src.  At handshake time
the local factor is calculated from the receive-buffer capacity and
recorded in `m_sndScaleFactor`. -/
def AddOptionWScale (s : TcpSocketBase) : TcpSocketBase × TcpOptionRec :=
  let scale := CalculateWScale s.m_rxBufferMaxSize
  ({ s with m_sndScaleFactor := scale }, ⟨TcpOptionKind.WScale, scale⟩)

/-! ## Connection setup, fork, close and remaining timers -/

/-- Modelled from the spec: body of `TcpSocketBase::Fork` (declared
tcp-socket-base.h:703) is absent from src.  The copy constructor
(tcp-socket-base.h:167) clones the socket: the full configuration is
copied. -/
def Fork (s : TcpSocketBase) : TcpSocketBase := s

/-- Modelled from the spec: body of `TcpSocketBase::CompleteFork`
(declared tcp-socket-base.h:397) is absent from src; modelled from its doc
comment and spec section 4.6a.  The clone gets a fresh endpoint and a
fresh, independent sequence ledger seeded from a new initial sequence
number `isn` and the SYN's sequence number, fresh (empty) history,
collaborator logs and timer state, sends a SYN+ACK (the SYN consumes one
sequence number and arms the connection-retry timer), and moves to
SYN_RCVD.  The listening socket itself is not touched. -/
def CompleteFork (now isn : Nat) (l : TcpSocketBase) (h : TcpHeader) : TcpSocketBase :=
  { Fork l with
    m_state := TcpStates_t.SYN_RCVD
    m_firstTxUnack := isn
    m_nextTxSequence := isn
    m_highTxMark := isn + 1
    m_highRxMark := h.seq + 1
    m_highRxAckMark := 0
    m_rWnd := rcvWindowOf l h
    m_dupAckCount := 0
    m_delAckCount := 0
    m_cnCount := l.m_cnRetries
    m_history := []
    m_rttSamples := []
    m_ccEvents := []
    m_sent := [⟨isn, 0, true, true, false⟩]
    m_retxEvent := some (now + l.m_cnTimeout)
    m_lastAckEvent := none
    m_delAckEvent := none
    m_persistEvent := none
    m_timewaitEvent := none
    m_connected := false }

/-- Modelled from the spec: body of `TcpSocketBase::ProcessListen`
(declared tcp-socket-base.h:604) is absent from src.  Spec section 4.1:
in LISTEN only a pure SYN triggers the passive-open fork; anything else
is dropped.  Returns the (unchanged) listening socket and the forked
socket when one was produced. -/
def ProcessListen (now isn : Nat) (l : TcpSocketBase) (h : TcpHeader) :
    TcpSocketBase × Option TcpSocketBase :=
  if h.syn ∧ ¬h.ack ∧ ¬h.rst then (l, some (CompleteFork now isn l h))
  else (l, none)

/-- Modelled from the spec: body of `TcpSocketBase::DoConnect` (declared
tcp-socket-base.h:364) is absent from src.  Spec section 4.1: connect is
only legal from CLOSED; it seeds the ledger from a fresh initial sequence
number, sends a SYN (consuming one sequence number) and moves to
SYN_SENT, arming the connection-retry timer. -/
def DoConnect (now isn : Nat) (s : TcpSocketBase) : TcpSocketBase :=
  if s.m_state = TcpStates_t.CLOSED then
    { s with
      m_state := TcpStates_t.SYN_SENT
      m_firstTxUnack := isn
      m_nextTxSequence := isn
      m_highTxMark := isn + 1
      m_cnCount := s.m_cnRetries
      m_sent := s.m_sent ++ [⟨isn, 0, true, false, false⟩]
      m_retxEvent := some (now + s.m_cnTimeout) }
  else s

/-- Modelled from the spec: body of `TcpSocketBase::DoClose` (declared
tcp-socket-base.h:533) is absent from src.  Spec section 4.1: a local
close from ESTABLISHED (or CLOSE_WAIT) sends a FIN, which consumes one
sequence number, and moves to FIN_WAIT_1 (resp. LAST_ACK); from the
handshake states the socket is torn down with a RST. -/
def DoClose (now : Nat) (s : TcpSocketBase) : TcpSocketBase :=
  match s.m_state with
  | TcpStates_t.ESTABLISHED =>
      { s with
        m_state := TcpStates_t.FIN_WAIT_1
        m_sent := s.m_sent ++ [⟨s.m_nextTxSequence, 0, false, true, true⟩]
        m_highTxMark := max s.m_highTxMark (s.m_nextTxSequence + 1)
        m_nextTxSequence := s.m_nextTxSequence + 1 }
  | TcpStates_t.CLOSE_WAIT =>
      { s with
        m_state := TcpStates_t.LAST_ACK
        m_sent := s.m_sent ++ [⟨s.m_nextTxSequence, 0, false, true, true⟩]
        m_highTxMark := max s.m_highTxMark (s.m_nextTxSequence + 1)
        m_nextTxSequence := s.m_nextTxSequence + 1
        m_lastAckEvent := some (now + s.m_rto) }
  | TcpStates_t.SYN_SENT =>
      { s with m_state := TcpStates_t.CLOSED
               m_sent := s.m_sent ++ [⟨s.m_nextTxSequence, 0, false, false, false⟩] }
  | TcpStates_t.SYN_RCVD =>
      { s with m_state := TcpStates_t.CLOSED
               m_sent := s.m_sent ++ [⟨s.m_nextTxSequence, 0, false, false, false⟩] }
  | _ => s

/-- Modelled from the spec: body of `TcpSocketBase::TimeWait` (declared
tcp-socket-base.h:582) is absent from src.  Move to TIME_WAIT and arm the
time-wait timer for the 2×MSL quiescence period (`msl2` ticks). -/
def TimeWait (now msl2 : Nat) (s : TcpSocketBase) : TcpSocketBase :=
  { s with
    m_state := TcpStates_t.TIME_WAIT
    m_timewaitEvent := some (now + msl2) }

/-- Modelled from the spec: body of `TcpSocketBase::DelAckTimeout`
(declared tcp-socket-base.h:744) is absent from src.  Send the deferred
ACK and reset the delayed-ack counter. -/
def DelAckTimeout (s : TcpSocketBase) : TcpSocketBase :=
  { s with
    m_delAckCount := 0
    m_delAckEvent := none
    m_sent := s.m_sent ++ [⟨s.m_nextTxSequence, 0, false, true, false⟩] }

/-- Modelled from the spec: body of `TcpSocketBase::PersistTimeout`
(declared tcp-socket-base.h:754) is absent from src.  Spec section 4.2:
send a single probe byte and reschedule with exponential backoff; the
ledger is not advanced by the probe. -/
def PersistTimeout (now : Nat) (s : TcpSocketBase) : TcpSocketBase :=
  { s with
    m_persistTimeout := 2 * s.m_persistTimeout
    m_persistEvent := some (now + 2 * s.m_persistTimeout)
    m_sent := s.m_sent ++ [⟨s.m_nextTxSequence, 1, false, true, false⟩] }

/-! ## Application send path -/

/-- The states from which an application `Send` is accepted (connection
up or still exchanging the handshake, or peer already closed its side). -/
def sendableState (st : TcpStates_t) : Bool :=
  st = TcpStates_t.ESTABLISHED ∨ st = TcpStates_t.SYN_SENT ∨
  st = TcpStates_t.SYN_RCVD ∨ st = TcpStates_t.CLOSE_WAIT

/-- Modelled from the spec: body of `TcpSocketBase::Send` (declared
tcp-socket-base.h:310) is absent from src.  Spec section 6: enqueue bytes
to send, bounded by the send-buffer capacity, reporting backpressure when
full; sending is rejected after a send-side shutdown or outside an
active state.  Returns the number of bytes enqueued (-1 on error) and the
updated socket. -/
def Send (s : TcpSocketBase) (p : Nat) (flags : Nat) : Int × TcpSocketBase :=
  if s.m_shutdownSend then (-1, { s with m_errno := SocketErrno.ERROR_SHUTDOWN })
  else if sendableState s.m_state then
    if s.m_txBufferOccupancy + p ≤ s.m_sndBufSize then
      ((p : Int), { s with m_txBufferOccupancy := s.m_txBufferOccupancy + p })
    else (-1, { s with m_errno := SocketErrno.ERROR_MSGSIZE })
  else (-1, { s with m_errno := SocketErrno.ERROR_NOTCONN })

/-- Modelled from the spec: body of `TcpSocketBase::SendTo` (declared
tcp-socket-base.h:311, doc: same as Send(), toAddress is insignificant)
is absent from src.  Delegates to `Send`, ignoring the destination
address. -/
def SendTo (s : TcpSocketBase) (p : Nat) (flags : Nat) (toAddress : Address) :
    Int × TcpSocketBase :=
  Send s p flags

/-! ## Multipath: subflow and meta coordinator -/

/-- A path-specific connection attached to a multipath coordinator
(`MpTcpSubflow`, forward-declared tcp-socket-base.h:56).  It wraps the
connection state; `metaHandle` identifies the owning coordinator. -/
structure MpTcpSubflow where
  sock : TcpSocketBase
  metaHandle : Nat
deriving DecidableEq, Repr

/-- The states strictly past ESTABLISHED in the teardown direction. -/
def pastEstablished (st : TcpStates_t) : Bool :=
  match st with
  | TcpStates_t.CLOSE_WAIT => true
  | TcpStates_t.LAST_ACK => true
  | TcpStates_t.FIN_WAIT_1 => true
  | TcpStates_t.FIN_WAIT_2 => true
  | TcpStates_t.CLOSING => true
  | TcpStates_t.TIME_WAIT => true
  | _ => false

/-- The locally triggered operations of a subflow: the data-path
operations it still runs itself, and the lifecycle operations whose
`MpTcpSubflow` overrides are disabled by the `DISABLE_MEMBER` macro
(tcp-socket-base.h:44-47). -/
inductive SubflowLocalOp where
  | sendData (now bytes : Nat)
  | receivedAck (now : Nat) (h : TcpHeader)
  | reTxTimeout (now : Nat)
  | updateWindow (h : TcpHeader)
  | estimateRtt (now : Nat) (h : TcpHeader)
  | processOption (o : TcpOptionRec)
  | doClose (now : Nat)
  | peerClose
  | timeWait (now msl2 : Nat)
  | closeAndNotify
deriving DecidableEq, Repr

/-- Modelled from the spec: the `MpTcpSubflow` member bodies are absent
from src; only the `DISABLE_MEMBER` macro (tcp-socket-base.h:44-47)
remains, whose expansion raises a fatal error ("This should never be
called. The meta will make the subflow pass from LISTEN to
ESTABLISHED.").  Spec section 4.6b: a Subflow, once attached, disables
any local transition that would carry it past ESTABLISHED autonomously;
only the coordinator may drive subflow teardown.  Disabled members are
modelled as `Except.error`; the surviving data-path members delegate to
the base operations. -/
def MpTcpSubflow.localStep (sf : MpTcpSubflow) (op : SubflowLocalOp) :
    Except String MpTcpSubflow :=
  match op with
  | SubflowLocalOp.sendData now bytes =>
      Except.ok { sf with sock := SendDataPacket now sf.sock bytes }
  | SubflowLocalOp.receivedAck now h =>
      Except.ok { sf with sock := ReceivedAck now sf.sock h }
  | SubflowLocalOp.reTxTimeout now =>
      Except.ok { sf with sock := ReTxTimeout now sf.sock }
  | SubflowLocalOp.updateWindow h =>
      Except.ok { sf with sock := (UpdateWindowSize sf.sock h).2 }
  | SubflowLocalOp.estimateRtt now h =>
      Except.ok { sf with sock := EstimateRtt now h sf.sock }
  | SubflowLocalOp.processOption o =>
      Except.ok { sf with sock := ProcessTcpOption sf.sock o }
  | SubflowLocalOp.doClose _ =>
      Except.error "This should never be called. The meta will make the subflow pass from LISTEN to ESTABLISHED."
  | SubflowLocalOp.peerClose =>
      Except.error "This should never be called. The meta will make the subflow pass from LISTEN to ESTABLISHED."
  | SubflowLocalOp.timeWait _ _ =>
      Except.error "This should never be called. The meta will make the subflow pass from LISTEN to ESTABLISHED."
  | SubflowLocalOp.closeAndNotify =>
      Except.error "This should never be called. The meta will make the subflow pass from LISTEN to ESTABLISHED."

/-- The subflow lifecycle operations disabled by `DISABLE_MEMBER`. -/
def disabledSubflowOps : List SubflowLocalOp :=
  [SubflowLocalOp.doClose 0, SubflowLocalOp.peerClose,
   SubflowLocalOp.timeWait 0 0, SubflowLocalOp.closeAndNotify]

/-- The multipath coordinator (`MpTcpSocketBase`): the application-facing
object aggregating the subflows, holding its master subflow. -/
structure MpTcpSocketBase where
  master : MpTcpSubflow
deriving DecidableEq, Repr

/-- An object an external handle can reference: a plain TCP connection or
a multipath coordinator. -/
inductive SocketObj where
  | tcp (s : TcpSocketBase)
  | meta (m : MpTcpSocketBase)
deriving DecidableEq, Repr

/-- Modelled from the spec: body of `TcpSocketBase::UpgradeToMeta`
(declared tcp-socket-base.h:799) is absent from src.  Its header doc
describes an in-place type upgrade via placement new; spec sections 4.6b
and 9 direct modelling it as an ownership transfer: construct the
coordinator and move all mutable connection state into a freshly created
Subflow value attached to it (`metaHandle` is the handle under which the
coordinator is reachable).  Returns the coordinator, whose master field
is the returned subflow. -/
def UpgradeToMeta (handle : Nat) (s : TcpSocketBase) : MpTcpSocketBase × MpTcpSubflow :=
  let sub : MpTcpSubflow := { sock := s, metaHandle := handle }
  ({ master := sub }, sub)

/-- A table of external handles: which object each handle resolves to. -/
def HandleTable := List (Nat × SocketObj)

/-- Resolve an external handle. -/
def resolve (w : HandleTable) (h : Nat) : Option SocketObj :=
  match w with
  | [] => none
  | e :: rest => if e.1 = h then some e.2 else resolve rest h

/-- Modelled from the spec: the upgrade as seen through the handle table.
Spec section 4.6b: any external handle that referenced the original
connection now resolves to the coordinator. -/
def upgradeWorld (w : HandleTable) (h : Nat) : HandleTable :=
  w.map fun e =>
    if e.1 = h then
      (e.1, match e.2 with
            | SocketObj.tcp s => SocketObj.meta (UpgradeToMeta h s).1
            | o => o)
    else e

/-! ## The reachable-state machine of a connection

Every modelled operation of a single connection, as a step relation, and
the states reachable from construction (`initialSocket`), local connect
and passive-open fork. -/

/-- A freshly constructed socket (`TcpSocketBase()` constructor,
tcp-socket-base.h:160) with the given configuration values: CLOSED, an
all-zero ledger, no history, no pending timers. -/
def initialSocket (segSize initialCWnd initialSsThresh rxBufMax sndBufMax
    delAckMax cnRetries rto minRto persistTo cnTo maxWin : Nat)
    (noDelay winScaling timestamps mptcp : Bool) : TcpSocketBase :=
  { m_retxEvent := none
    m_lastAckEvent := none
    m_delAckEvent := none
    m_persistEvent := none
    m_timewaitEvent := none
    m_dupAckCount := 0
    m_delAckCount := 0
    m_delAckMaxCount := delAckMax
    m_noDelay := noDelay
    m_cnCount := cnRetries
    m_cnRetries := cnRetries
    m_rto := rto
    m_minRto := minRto
    m_persistTimeout := persistTo
    m_cnTimeout := cnTo
    m_lastRtt := none
    m_history := []
    m_firstTxUnack := 0
    m_nextTxSequence := 0
    m_highTxMark := 0
    m_rxBufferMaxSize := rxBufMax
    m_txBufferOccupancy := 0
    m_sndBufSize := sndBufMax
    m_state := TcpStates_t.CLOSED
    m_errno := SocketErrno.ERROR_NOTERROR
    m_closeNotified := false
    m_closeOnEmpty := false
    m_shutdownSend := false
    m_shutdownRecv := false
    m_connected := false
    m_maxWinSize := maxWin
    m_rWnd := 0
    m_highRxMark := 0
    m_highRxAckMark := 0
    m_mptcpEnabled := mptcp
    m_winScalingEnabled := winScaling
    m_sndScaleFactor := 0
    m_rcvScaleFactor := 0
    m_timestampEnabled := timestamps
    m_timestampToEcho := 0
    m_lostOut := 0
    m_retransOut := 0
    m_tcb := { m_cWnd := initialCWnd
               m_ssThresh := initialSsThresh
               m_initialCWnd := initialCWnd
               m_initialSsThresh := initialSsThresh
               m_segmentSize := segSize
               m_ackState := TcpAckState_t.OPEN }
    m_rttSamples := []
    m_ccEvents := []
    m_sent := [] }

/-- One operation of a connection: every modelled state-changing member
function appears as a case. -/
inductive Step : TcpSocketBase → TcpSocketBase → Prop where
  | doConnect (s : TcpSocketBase) (now isn : Nat) : Step s (DoConnect now isn s)
  | appSend (s : TcpSocketBase) (p flags : Nat) : Step s (Send s p flags).2
  | sendData (s : TcpSocketBase) (now bytes : Nat) : Step s (SendDataPacket now s bytes)
  | receivedAck (s : TcpSocketBase) (now : Nat) (h : TcpHeader) :
      Step s (ReceivedAck now s h)
  | reTxTimeout (s : TcpSocketBase) (now : Nat) : Step s (ReTxTimeout now s)
  | delAckTimeout (s : TcpSocketBase) : Step s (DelAckTimeout s)
  | persistTimeout (s : TcpSocketBase) (now : Nat) : Step s (PersistTimeout now s)
  | updateWindow (s : TcpSocketBase) (h : TcpHeader) : Step s (UpdateWindowSize s h).2
  | estimateRtt (s : TcpSocketBase) (now : Nat) (h : TcpHeader) :
      Step s (EstimateRtt now h s)
  | processOption (s : TcpSocketBase) (o : TcpOptionRec) : Step s (ProcessTcpOption s o)
  | addWScale (s : TcpSocketBase) : Step s (AddOptionWScale s).1
  | doClose (s : TcpSocketBase) (now : Nat) : Step s (DoClose now s)
  | timeWait (s : TcpSocketBase) (now msl2 : Nat) : Step s (TimeWait now msl2 s)

/-- The observable states of a connection: freshly constructed, spawned
by a passive-open fork from a reachable listener, or the result of any
operation on a reachable state. -/
inductive Reachable : TcpSocketBase → Prop where
  | init (segSize initialCWnd initialSsThresh rxBufMax sndBufMax
      delAckMax cnRetries rto minRto persistTo cnTo maxWin : Nat)
      (noDelay winScaling timestamps mptcp : Bool) :
      Reachable (initialSocket segSize initialCWnd initialSsThresh rxBufMax
        sndBufMax delAckMax cnRetries rto minRto persistTo cnTo maxWin
        noDelay winScaling timestamps mptcp)
  | fork (l n : TcpSocketBase) (now isn : Nat) (h : TcpHeader) :
      Reachable l → (ProcessListen now isn l h).2 = some n → Reachable n
  | step (s s' : TcpSocketBase) : Reachable s → Step s s' → Reachable s'

/-- The sequence-ledger ordering of spec sections 3 and 8:
first-unacked ≤ next-to-send ≤ highest-ever-sent. -/
def LedgerInv (s : TcpSocketBase) : Prop :=
  s.m_firstTxUnack ≤ s.m_nextTxSequence ∧ s.m_nextTxSequence ≤ s.m_highTxMark

theorem ledgerInv_step (s s' : TcpSocketBase) (hs : LedgerInv s) (st : Step s s') :
    LedgerInv s' := by
  obtain ⟨h1, h2⟩ := hs
  cases st with
  | doConnect now isn =>
      unfold LedgerInv DoConnect
      split
      · exact ⟨le_refl _, Nat.le_succ _⟩
      · exact ⟨h1, h2⟩
  | appSend p flags =>
      unfold LedgerInv Send
      split
      · exact ⟨h1, h2⟩
      · split
        · split
          · exact ⟨h1, h2⟩
          · exact ⟨h1, h2⟩
        · exact ⟨h1, h2⟩
  | sendData now bytes =>
      unfold LedgerInv SendDataPacket
      constructor
      · simp
        omega
      · simp
  | receivedAck now h =>
      unfold LedgerInv ReceivedAck NewAck EstimateRtt
      split
      · exact ⟨h1, h2⟩
      · split
        · simp
          all_goals omega
        · exact ⟨h1, h2⟩
  | reTxTimeout now =>
      unfold LedgerInv ReTxTimeout Retransmit DoRetransmit
      split
      · exact ⟨h1, h2⟩
      · split
        · exact ⟨h1, h2⟩
        · simp
          all_goals omega
  | delAckTimeout =>
      unfold LedgerInv DelAckTimeout
      exact ⟨h1, h2⟩
  | persistTimeout now =>
      unfold LedgerInv PersistTimeout
      exact ⟨h1, h2⟩
  | updateWindow h =>
      simp only [LedgerInv, UpdateWindowSize]
      repeat' split
      all_goals exact ⟨h1, h2⟩
  | estimateRtt now h =>
      unfold LedgerInv EstimateRtt
      exact ⟨h1, h2⟩
  | processOption o =>
      simp only [LedgerInv, ProcessTcpOption, ProcessOptionWScale, ProcessOptionTimestamp]
      rcases o with ⟨k, v⟩
      cases k <;> repeat' split
      all_goals exact ⟨h1, h2⟩
  | addWScale =>
      unfold LedgerInv AddOptionWScale
      exact ⟨h1, h2⟩
  | doClose now =>
      unfold LedgerInv DoClose
      rcases hst : s.m_state <;> simp [hst] <;> omega
  | timeWait now msl2 =>
      unfold LedgerInv TimeWait
      exact ⟨h1, h2⟩

/-- C1: For every reachable/observable state of a connection, the
sequence-ledger ordering `m_firstTxUnack ≤ m_nextTxSequence ≤ m_highTxMark`
holds, and it is preserved by every operation of the connection (every
`Step` case, plus construction and passive-open fork). -/
theorem ledger_ordering_invariant (s : TcpSocketBase) (h : Reachable s) :
    s.m_firstTxUnack ≤ s.m_nextTxSequence ∧ s.m_nextTxSequence ≤ s.m_highTxMark := by
  induction h with
  | init =>
      simp [initialSocket]
  | fork l n now isn hd hl heq ih =>
      unfold ProcessListen at heq
      split at heq
      · simp at heq
        subst heq
        simp [CompleteFork, Fork]
      · simp at heq
  | step s s' hr st ih =>
      exact ledgerInv_step s s' ih st

/-- Witness for C1: the invariant holds at a concrete reachable state. -/
theorem ledger_ordering_invariant_witness :
    (initialSocket 536 5360 65535 65535 65535 2 6 3 1 6 3 65535
        false true true true).m_firstTxUnack ≤
      (initialSocket 536 5360 65535 65535 65535 2 6 3 1 6 3 65535
        false true true true).m_nextTxSequence ∧
    (initialSocket 536 5360 65535 65535 65535 2 6 3 1 6 3 65535
        false true true true).m_nextTxSequence ≤
      (initialSocket 536 5360 65535 65535 65535 2 6 3 1 6 3 65535
        false true true true).m_highTxMark :=
  ledger_ordering_invariant _
    (Reachable.init 536 5360 65535 65535 65535 2 6 3 1 6 3 65535 false true true true)

/-- A concrete connection used by the witnesses: ESTABLISHED, segment
size 536, a congestion window of ten segments, bytes 101..1100 sent and
not yet acknowledged. -/
def estSocket : TcpSocketBase :=
  { initialSocket 536 5360 65535 65535 65535 2 6 3 1 6 3 65535 false true true true with
    m_state := TcpStates_t.ESTABLISHED
    m_connected := true
    m_firstTxUnack := 101
    m_nextTxSequence := 1101
    m_highTxMark := 1101
    m_rWnd := 10000
    m_highRxMark := 300
    m_highRxAckMark := 101
    m_history := [⟨101, 536, 5, false⟩, ⟨637, 464, 6, true⟩] }

/-- C2: when the retransmission timer fires on a live connection with
unacked data, the handler notifies the congestion-control strategy of a
loss event, sets the ack-state to LOSS, halves ssthresh (for any
cwnd = n×segmentSize before firing, ssthresh becomes ⌊cwnd/2⌋, which is
(n/2)×segmentSize whenever n is even, e.g. 10× → 5×), collapses cwnd to
exactly one segment size, retransmits the oldest unacked segment, and
doubles the RTO before rearming the timer with the backed-off value. -/
theorem retransmit_timeout_spec (s : TcpSocketBase) (now n : Nat)
    (hstate1 : s.m_state ≠ TcpStates_t.CLOSED)
    (hstate2 : s.m_state ≠ TcpStates_t.TIME_WAIT)
    (hun : s.m_firstTxUnack < s.m_highTxMark)
    (hcw : s.m_tcb.m_cWnd = n * s.m_tcb.m_segmentSize)
    (hn : 2 ∣ n) :
    (ReTxTimeout now s).m_ccEvents = s.m_ccEvents ++ [CongestionEvent.lossDetected] ∧
    (ReTxTimeout now s).m_tcb.m_ackState = TcpAckState_t.LOSS ∧
    (ReTxTimeout now s).m_tcb.m_ssThresh = s.m_tcb.m_cWnd / 2 ∧
    (ReTxTimeout now s).m_tcb.m_ssThresh = (n / 2) * s.m_tcb.m_segmentSize ∧
    (ReTxTimeout now s).m_tcb.m_cWnd = s.m_tcb.m_segmentSize ∧
    (ReTxTimeout now s).m_sent = s.m_sent ++
      [⟨s.m_firstTxUnack, min s.m_tcb.m_segmentSize (s.m_highTxMark - s.m_firstTxUnack),
        false, true, false⟩] ∧
    (ReTxTimeout now s).m_rto = 2 * s.m_rto ∧
    (ReTxTimeout now s).m_retxEvent = some (now + 2 * s.m_rto) := by
  have hcond1 : ¬(s.m_state = TcpStates_t.CLOSED ∨ s.m_state = TcpStates_t.TIME_WAIT) := by
    tauto
  have hcond2 : ¬(s.m_highTxMark ≤ s.m_firstTxUnack) := by omega
  unfold ReTxTimeout Retransmit DoRetransmit
  rw [if_neg hcond1, if_neg hcond2]
  obtain ⟨k, rfl⟩ := hn
  have hdiv : 2 * k * s.m_tcb.m_segmentSize / 2 = 2 * k / 2 * s.m_tcb.m_segmentSize := by
    have hmm : 2 * k * s.m_tcb.m_segmentSize = 2 * (k * s.m_tcb.m_segmentSize) := by ring
    have hk2 : 2 * k / 2 = k := by omega
    rw [hmm, hk2]
    omega
  refine ⟨by simp, by simp, by simp, ?_, by simp, by simp, by simp, by simp⟩
  simp [hcw, hdiv]

/-- Witness for C2 at `estSocket` (cwnd = 10 segments): ssthresh becomes
5 segments, cwnd one segment, ack-state LOSS, RTO doubled. -/
theorem retransmit_timeout_spec_witness :
    (ReTxTimeout 50 estSocket).m_tcb.m_ackState = TcpAckState_t.LOSS ∧
    (ReTxTimeout 50 estSocket).m_tcb.m_ssThresh =
      10 / 2 * estSocket.m_tcb.m_segmentSize ∧
    (ReTxTimeout 50 estSocket).m_tcb.m_cWnd = estSocket.m_tcb.m_segmentSize ∧
    (ReTxTimeout 50 estSocket).m_rto = 2 * estSocket.m_rto := by
  obtain ⟨h1, h2, h3, h4, h5, h6, h7, h8⟩ :=
    retransmit_timeout_spec estSocket 50 10 (by decide) (by decide) (by decide)
      (by decide) (by decide)
  exact ⟨h2, h4, h5, h7⟩

/-- C3: `UpdateWindowSize` updates the recorded peer window `m_rWnd` iff
the segment advances the right edge of received data, or its ack advances
the highest ack received, or the advertised window is strictly larger
than the recorded one; when accepted `m_rWnd` becomes the (scaled)
advertised window, otherwise the socket is left entirely unchanged. -/
theorem updateWindowSize_iff (s : TcpSocketBase) (h : TcpHeader) :
    ((UpdateWindowSize s h).1 = true ↔
      (s.m_highRxMark < h.seq ∨ s.m_highRxAckMark < h.ackNo ∨
        s.m_rWnd < rcvWindowOf s h)) ∧
    ((UpdateWindowSize s h).1 = true →
      (UpdateWindowSize s h).2 = { s with m_rWnd := rcvWindowOf s h }) ∧
    ((UpdateWindowSize s h).1 = false → (UpdateWindowSize s h).2 = s) := by
  simp only [UpdateWindowSize]
  refine ⟨?_, ?_, ?_⟩ <;> repeat' split
  all_goals simp_all

/-- Witness for C3: a segment whose ack advances the highest received ack
is accepted and installs the advertised window. -/
theorem updateWindowSize_iff_witness :
    (UpdateWindowSize estSocket ⟨300, 150, false, true, false, false, 200, 0, []⟩).1
        = true ∧
    (UpdateWindowSize estSocket ⟨300, 150, false, true, false, false, 200, 0, []⟩).2
        = { estSocket with
            m_rWnd := rcvWindowOf estSocket ⟨300, 150, false, true, false, false, 200, 0, []⟩ } := by
  obtain ⟨hiff, hacc, hrej⟩ :=
    updateWindowSize_iff estSocket ⟨300, 150, false, true, false, false, 200, 0, []⟩
  have hup : (UpdateWindowSize estSocket
      ⟨300, 150, false, true, false, false, 200, 0, []⟩).1 = true := by
    apply hiff.mpr
    right
    left
    decide
  exact ⟨hup, hacc hup⟩

/-- The samples produced by retiring history entries at a cumulative ack
are exactly those of the fully covered entries that were never
retransmitted. -/
theorem retireHistory_samples (now ackSeq : Nat) (l : List RttHistory) :
    (retireHistory now ackSeq l).2 =
      ((l.takeWhile fun e => e.seq + e.count ≤ ackSeq).filter fun e => !e.retx).map
        fun e => now - e.time := by
  induction l with
  | nil => simp [retireHistory]
  | cons a t ih =>
      unfold retireHistory
      by_cases hc : a.seq + a.count ≤ ackSeq
      · rw [if_pos hc]
        cases ha : a.retx <;>
          simp [List.takeWhile_cons, List.filter_cons, hc, ha, ih]
      · rw [if_neg hc]
        simp [List.takeWhile_cons, hc]

/-- C4: retiring history entries on a cumulative ack feeds the RTT
estimator exactly the samples of retired entries whose retransmitted flag
is false; an entry with `retx = true` never produces a history-based RTT
sample (Karn's algorithm). -/
theorem estimateRtt_karn (now : Nat) (h : TcpHeader) (s : TcpSocketBase) :
    (EstimateRtt now h s).m_rttSamples = s.m_rttSamples ++
      (((s.m_history.takeWhile fun e => e.seq + e.count ≤ h.ackNo).filter
        fun e => !e.retx).map fun e => now - e.time) := by
  unfold EstimateRtt
  simp [retireHistory_samples]

/-- C5: `AvailableWindow` equals `min(cwnd, peer window) - BytesInFlight`
clamped below at zero, hence is never negative. -/
theorem availableWindow_spec (s : TcpSocketBase) :
    ((AvailableWindow s : Int) =
      max (min (s.m_tcb.m_cWnd : Int) (s.m_rWnd : Int) - (BytesInFlight s : Int)) 0) ∧
    0 ≤ (AvailableWindow s : Int) := by
  simp only [AvailableWindow, Window]
  split <;> refine ⟨?_, ?_⟩ <;> omega

/-- C6: the local window-scale factor is log2 of the receive-buffer
capacity clamped to 14, so `CalculateWScale` always lands in 0..14; and
in ESTABLISHED a peer window-scale option is phase-disallowed, so
processing it leaves the socket (in particular both recorded scale
factors) unchanged. -/
theorem wscale_bounded_and_immutable (s : TcpSocketBase) (o : TcpOptionRec) (b : Nat)
    (hs : s.m_state = TcpStates_t.ESTABLISHED)
    (hk : o.kind = TcpOptionKind.WScale) :
    CalculateWScale b ≤ 14 ∧ ProcessTcpOption s o = s := by
  refine ⟨min_le_right _ _, ?_⟩
  unfold ProcessTcpOption
  rw [hk, hs]
  simp [IsTcpOptionAllowed]

/-- Witness for C6: a post-handshake window-scale option with value 7 is
ignored by `estSocket`. -/
theorem wscale_bounded_and_immutable_witness :
    CalculateWScale 65535 ≤ 14 ∧
      ProcessTcpOption estSocket ⟨TcpOptionKind.WScale, 7⟩ = estSocket :=
  wscale_bounded_and_immutable estSocket ⟨TcpOptionKind.WScale, 7⟩ 65535 rfl rfl

/-- A concrete listening connection used by the witnesses. -/
def listenSocket : TcpSocketBase :=
  { initialSocket 536 5360 65535 65535 65535 2 6 3 1 6 3 65535 false true true true with
    m_state := TcpStates_t.LISTEN }

/-- A concrete pure SYN used by the witnesses. -/
def synHeader : TcpHeader :=
  ⟨400, 0, true, false, false, false, 65535, 0, []⟩

/-- C7: a pure SYN received in LISTEN produces a forked connection whose
configuration (including segment size) equals the listener's, whose
sequence ledger, history and timer state are fresh and independent
(seeded from the new `isn` and `now`, not from the listener's ledger),
which has sent a SYN+ACK and sits in SYN_RCVD; the listening connection
itself is returned completely unchanged and still in LISTEN. -/
theorem processListen_fork_spec (now isn : Nat) (l : TcpSocketBase) (h : TcpHeader)
    (hl : l.m_state = TcpStates_t.LISTEN)
    (hsyn : h.syn = true) (hack : h.ack = false) (hrst : h.rst = false) :
    ProcessListen now isn l h = (l, some (CompleteFork now isn l h)) ∧
    (CompleteFork now isn l h).m_tcb = l.m_tcb ∧
    (CompleteFork now isn l h).m_tcb.m_segmentSize = l.m_tcb.m_segmentSize ∧
    (CompleteFork now isn l h).m_delAckMaxCount = l.m_delAckMaxCount ∧
    (CompleteFork now isn l h).m_noDelay = l.m_noDelay ∧
    (CompleteFork now isn l h).m_cnRetries = l.m_cnRetries ∧
    (CompleteFork now isn l h).m_rxBufferMaxSize = l.m_rxBufferMaxSize ∧
    (CompleteFork now isn l h).m_sndBufSize = l.m_sndBufSize ∧
    (CompleteFork now isn l h).m_maxWinSize = l.m_maxWinSize ∧
    (CompleteFork now isn l h).m_winScalingEnabled = l.m_winScalingEnabled ∧
    (CompleteFork now isn l h).m_timestampEnabled = l.m_timestampEnabled ∧
    (CompleteFork now isn l h).m_mptcpEnabled = l.m_mptcpEnabled ∧
    (CompleteFork now isn l h).m_minRto = l.m_minRto ∧
    (CompleteFork now isn l h).m_state = TcpStates_t.SYN_RCVD ∧
    (CompleteFork now isn l h).m_firstTxUnack = isn ∧
    (CompleteFork now isn l h).m_nextTxSequence = isn ∧
    (CompleteFork now isn l h).m_highTxMark = isn + 1 ∧
    (CompleteFork now isn l h).m_history = [] ∧
    (CompleteFork now isn l h).m_sent = [⟨isn, 0, true, true, false⟩] ∧
    (CompleteFork now isn l h).m_retxEvent = some (now + l.m_cnTimeout) ∧
    (CompleteFork now isn l h).m_delAckEvent = none ∧
    (CompleteFork now isn l h).m_persistEvent = none ∧
    (CompleteFork now isn l h).m_lastAckEvent = none ∧
    (CompleteFork now isn l h).m_timewaitEvent = none ∧
    (ProcessListen now isn l h).1 = l ∧
    (ProcessListen now isn l h).1.m_state = TcpStates_t.LISTEN := by
  have hcond : h.syn ∧ ¬h.ack ∧ ¬h.rst := by
    simp [hsyn, hack, hrst]
  have hPL : ProcessListen now isn l h = (l, some (CompleteFork now isn l h)) := by
    unfold ProcessListen
    rw [if_pos hcond]
  refine ⟨hPL, ?_⟩
  simp [CompleteFork, Fork, hPL, hl]

/-- Witness for C7 at a concrete listener and SYN. -/
theorem processListen_fork_spec_witness :
    ProcessListen 7 5000 listenSocket synHeader =
      (listenSocket, some (CompleteFork 7 5000 listenSocket synHeader)) ∧
    (CompleteFork 7 5000 listenSocket synHeader).m_tcb.m_segmentSize =
      listenSocket.m_tcb.m_segmentSize ∧
    (CompleteFork 7 5000 listenSocket synHeader).m_state = TcpStates_t.SYN_RCVD ∧
    (CompleteFork 7 5000 listenSocket synHeader).m_firstTxUnack = 5000 ∧
    (CompleteFork 7 5000 listenSocket synHeader).m_history = [] ∧
    (ProcessListen 7 5000 listenSocket synHeader).1.m_state = TcpStates_t.LISTEN := by
  obtain ⟨h1, h2, h3, h4, h5, h6, h7, h8, h9, h10, h11, h12, h13, h14, h15, h16,
    h17, h18, h19, h20, h21, h22, h23, h24, h25, h26⟩ :=
    processListen_fork_spec 7 5000 listenSocket synHeader rfl rfl rfl rfl
  exact ⟨h1, h3, h14, h15, h18, h26⟩

theorem ReceivedAck_state (now : Nat) (s : TcpSocketBase) (h : TcpHeader) :
    (ReceivedAck now s h).m_state = s.m_state := by
  simp only [ReceivedAck, NewAck, EstimateRtt]
  repeat' split
  all_goals rfl

theorem ReTxTimeout_state (now : Nat) (s : TcpSocketBase) :
    (ReTxTimeout now s).m_state = s.m_state := by
  simp only [ReTxTimeout, Retransmit, DoRetransmit]
  repeat' split
  all_goals rfl

theorem UpdateWindowSize_state (s : TcpSocketBase) (h : TcpHeader) :
    (UpdateWindowSize s h).2.m_state = s.m_state := by
  simp only [UpdateWindowSize]
  repeat' split
  all_goals rfl

theorem ProcessTcpOption_state (s : TcpSocketBase) (o : TcpOptionRec) :
    (ProcessTcpOption s o).m_state = s.m_state := by
  simp only [ProcessTcpOption, ProcessOptionWScale, ProcessOptionTimestamp]
  repeat' split
  all_goals rfl

/-- C8: a successful locally triggered subflow operation never changes the
connection state, so a subflow at or before ESTABLISHED can never carry
itself past ESTABLISHED autonomously; and every lifecycle member disabled
by `DISABLE_MEMBER` always fails with the macro's fatal-error message
instead of executing, leaving teardown to the coordinator alone. -/
theorem subflow_no_autonomous_teardown (sf sf' : MpTcpSubflow) (op : SubflowLocalOp)
    (hok : sf.localStep op = Except.ok sf') :
    sf'.sock.m_state = sf.sock.m_state ∧
    (∀ o ∈ disabledSubflowOps, sf.localStep o = Except.error
      "This should never be called. The meta will make the subflow pass from LISTEN to ESTABLISHED.") := by
  constructor
  · cases op with
    | sendData now bytes =>
        simp only [MpTcpSubflow.localStep, Except.ok.injEq] at hok
        rw [← hok]
        rfl
    | receivedAck now h =>
        simp only [MpTcpSubflow.localStep, Except.ok.injEq] at hok
        rw [← hok]
        exact ReceivedAck_state now sf.sock h
    | reTxTimeout now =>
        simp only [MpTcpSubflow.localStep, Except.ok.injEq] at hok
        rw [← hok]
        exact ReTxTimeout_state now sf.sock
    | updateWindow h =>
        simp only [MpTcpSubflow.localStep, Except.ok.injEq] at hok
        rw [← hok]
        exact UpdateWindowSize_state sf.sock h
    | estimateRtt now h =>
        simp only [MpTcpSubflow.localStep, Except.ok.injEq] at hok
        rw [← hok]
        rfl
    | processOption o =>
        simp only [MpTcpSubflow.localStep, Except.ok.injEq] at hok
        rw [← hok]
        exact ProcessTcpOption_state sf.sock o
    | doClose now => simp [MpTcpSubflow.localStep] at hok
    | peerClose => simp [MpTcpSubflow.localStep] at hok
    | timeWait now msl2 => simp [MpTcpSubflow.localStep] at hok
    | closeAndNotify => simp [MpTcpSubflow.localStep] at hok
  · intro o ho
    simp only [disabledSubflowOps, List.mem_cons, List.mem_singleton] at ho
    rcases ho with rfl | rfl | rfl | ho
    · rfl
    · rfl
    · rfl
    · simp at ho
      rw [ho]
      rfl

/-- A concrete attached subflow used by the witnesses. -/
def subflow0 : MpTcpSubflow := { sock := estSocket, metaHandle := 3 }

/-- Witness for C8: a concrete data-path step succeeds without changing
the state, and the disabled members all fail. -/
theorem subflow_no_autonomous_teardown_witness :
    ({ sock := SendDataPacket 9 estSocket 100, metaHandle := 3 } :
        MpTcpSubflow).sock.m_state = subflow0.sock.m_state ∧
    (∀ o ∈ disabledSubflowOps, subflow0.localStep o = Except.error
      "This should never be called. The meta will make the subflow pass from LISTEN to ESTABLISHED.") :=
  subflow_no_autonomous_teardown subflow0 _ (SubflowLocalOp.sendData 9 100) rfl

/-- Resolution after the upgrade: the upgraded handle maps through the
meta construction, every other handle is untouched. -/
theorem resolve_upgradeWorld (w : HandleTable) (hd h2 : Nat) :
    resolve (upgradeWorld w hd) h2 =
      if h2 = hd then
        (resolve w h2).map fun o =>
          match o with
          | SocketObj.tcp s => SocketObj.meta (UpgradeToMeta hd s).1
          | o => o
      else resolve w h2 := by
  induction w with
  | nil =>
      simp only [upgradeWorld, List.map_nil, resolve, Option.map_none]
      split <;> rfl
  | cons e t ih =>
      rcases e with ⟨k, obj⟩
      simp only [upgradeWorld] at ih
      by_cases hk : k = hd
      · subst hk
        by_cases hh : h2 = k
        · subst hh
          cases obj <;> simp [upgradeWorld, resolve]
        · have hh2 : ¬k = h2 := fun hc => hh hc.symm
          simp [upgradeWorld, resolve, hh, hh2, ih]
      · by_cases hh : h2 = k
        · subst hh
          simp [upgradeWorld, resolve, hk]
        · have hh2 : ¬k = h2 := fun hc => hh hc.symm
          simp [upgradeWorld, resolve, hk, hh2, ih]

/-- C9: the meta upgrade as an ownership transfer: the coordinator is
constructed with the freshly created Subflow value as its master, that
Subflow carries all the mutable connection state of the original
connection (sequence ledger, control block, history, negotiated option
state, timer handles), and afterwards every external handle that
referenced the original connection resolves to the coordinator while
unrelated handles are untouched. -/
theorem upgradeToMeta_ownership_transfer (w : HandleTable) (hd : Nat)
    (s : TcpSocketBase) (hres : resolve w hd = some (SocketObj.tcp s)) :
    (UpgradeToMeta hd s).1.master = (UpgradeToMeta hd s).2 ∧
    (UpgradeToMeta hd s).2.sock = s ∧
    (UpgradeToMeta hd s).2.sock.m_firstTxUnack = s.m_firstTxUnack ∧
    (UpgradeToMeta hd s).2.sock.m_nextTxSequence = s.m_nextTxSequence ∧
    (UpgradeToMeta hd s).2.sock.m_highTxMark = s.m_highTxMark ∧
    (UpgradeToMeta hd s).2.sock.m_tcb = s.m_tcb ∧
    (UpgradeToMeta hd s).2.sock.m_history = s.m_history ∧
    (UpgradeToMeta hd s).2.sock.m_sndScaleFactor = s.m_sndScaleFactor ∧
    (UpgradeToMeta hd s).2.sock.m_rcvScaleFactor = s.m_rcvScaleFactor ∧
    (UpgradeToMeta hd s).2.sock.m_timestampToEcho = s.m_timestampToEcho ∧
    (UpgradeToMeta hd s).2.sock.m_retxEvent = s.m_retxEvent ∧
    (UpgradeToMeta hd s).2.sock.m_persistEvent = s.m_persistEvent ∧
    (UpgradeToMeta hd s).2.sock.m_delAckEvent = s.m_delAckEvent ∧
    (UpgradeToMeta hd s).2.sock.m_lastAckEvent = s.m_lastAckEvent ∧
    (UpgradeToMeta hd s).2.sock.m_timewaitEvent = s.m_timewaitEvent ∧
    (UpgradeToMeta hd s).2.metaHandle = hd ∧
    resolve (upgradeWorld w hd) hd = some (SocketObj.meta (UpgradeToMeta hd s).1) ∧
    (∀ h2, h2 ≠ hd → resolve (upgradeWorld w hd) h2 = resolve w h2) := by
  refine ⟨rfl, rfl, rfl, rfl, rfl, rfl, rfl, rfl, rfl, rfl, rfl, rfl, rfl, rfl,
    rfl, rfl, ?_, ?_⟩
  · rw [resolve_upgradeWorld, if_pos rfl, hres]
    rfl
  · intro h2 hne
    rw [resolve_upgradeWorld, if_neg hne]

/-- A concrete handle table used by the C9 witness: handle 0 references
an established standalone connection, handle 1 an unrelated listener. -/
def world0 : HandleTable :=
  [(0, SocketObj.tcp estSocket), (1, SocketObj.tcp listenSocket)]

/-- Witness for C9 at `world0`: after upgrading handle 0, it resolves to
the coordinator whose master subflow carries `estSocket`, and handle 1
still resolves to the listener. -/
theorem upgradeToMeta_ownership_transfer_witness :
    (UpgradeToMeta 0 estSocket).2.sock = estSocket ∧
    resolve (upgradeWorld world0 0) 0 =
      some (SocketObj.meta (UpgradeToMeta 0 estSocket).1) ∧
    resolve (upgradeWorld world0 0) 1 = resolve world0 1 := by
  obtain ⟨h1, h2, h3, h4, h5, h6, h7, h8, h9, h10, h11, h12, h13, h14, h15, h16,
    h17, h18⟩ := upgradeToMeta_ownership_transfer world0 0 estSocket rfl
  exact ⟨h2, h17, h18 1 (by omega)⟩

/-- C10: `SendTo` behaves identically to `Send`: the destination address
argument is ignored, the same result is returned and the resulting socket
state is the same. -/
theorem sendTo_ignores_address (s : TcpSocketBase) (p flags : Nat) (a b : Address) :
    SendTo s p flags a = Send s p flags ∧
    SendTo s p flags a = SendTo s p flags b :=
  ⟨rfl, rfl⟩

end ns3
